import Mathlib

/-!
Verification development for the `cfndeployer` package: a shallow embedding
of `cfndeployer/stack.py` (the stack lifecycle orchestrator) and
`cfndeployer/package.py` (the content-addressed artifact uploader and
packaging driver), with theorems settling the specification claims.

Remote services (CloudFormation, S3, the local filesystem) appear as
explicit environment parameters: each remote call's response is an input
of the embedded function, and the calls a function issues are returned as
an explicit trace.
-/

namespace Cfndeployer

/-- Python truthiness of a string: a string is truthy iff it is nonempty. -/
def pyStrTruthy (s : String) : Bool := !s.isEmpty

/-- Python `needle in haystack` on strings: substring containment. -/
def strIn (needle haystack : String) : Bool :=
  decide (needle.data <:+: haystack.data)

/- ## `Stack._wait_for_change_set` (stack.py lines 157-174) -/

/-- The `last_response` of a failed `change_set_create_complete` waiter:
the fields the handler reads (`resp['Status']`, `resp['StatusReason']`). -/
structure WaiterResponse where
  Status : String
  StatusReason : String
deriving DecidableEq, Repr

/-- What `_wait_for_change_set` does: return normally, raise
`EmptyChangeSet(stack_name=...)`, or re-raise the original `WaiterError`. -/
inductive WaitChangeSetResult where
  | ok
  | emptyChangeSet (stack_name : String)
  | waiterError (resp : WaiterResponse)
deriving DecidableEq, Repr

/-- `Stack._wait_for_change_set`: waits for the change set; on a
`WaiterError` it reads the last response's `Status` and `StatusReason` and
tests `status == 'FAILED' and (msg[0] or msg[1] not in reason)`.  Python
operator precedence parses the parenthesised part as
`msg[0] or (msg[1] not in reason)`, and `msg[0]` is a nonempty (truthy)
string, so the embedding renders it as a disjunction whose left side is the
truthiness of `msg[0]`.  `outcome = none` models a waiter that succeeded. -/
def wait_for_change_set (stackName : String) (outcome : Option WaiterResponse) :
    WaitChangeSetResult :=
  match outcome with
  | none => .ok
  | some resp =>
      let status := resp.Status
      let reason := resp.StatusReason
      let msg0 := "No updates are to be performed"
      let msg1 := "The submitted information didn\x27t contain changes."
      if status == "FAILED" && (pyStrTruthy msg0 || !strIn msg1 reason)
      then .emptyChangeSet stackName
      else .waiterError resp

/- ## `S3Uploader.file_exists` (package.py lines 118-130) -/

/-- An error code carried by a botocore `ClientError` from `head_object`. -/
inductive S3ErrorCode where
  | notFound
  | accessDenied
  | other (code : String)
deriving DecidableEq, Repr

/-- Whether a `head_object` error specifically indicates absence of the
object (an HTTP 404 / not-found response). -/
def indicatesAbsence : S3ErrorCode → Bool
  | .notFound => true
  | _ => false

/-- The outcome of the remote `head_object` call as `file_exists` observes
it: success, an exception of the `ClientError` class (any code), or an
exception outside the `ClientError` class (transport failure, etc.). -/
inductive HeadResult where
  | found
  | clientError (code : S3ErrorCode)
  | nonClientError (msg : String)
deriving DecidableEq, Repr

/-- What `file_exists` does: return a boolean, or let an exception escape. -/
inductive FileExistsResult where
  | result (b : Bool)
  | raised (msg : String)
deriving DecidableEq, Repr

/-- `S3Uploader.file_exists`: calls `head_object`; `return True` on success,
and `except ClientError: return False` — every `ClientError`, whatever its
code, yields `False`; only exceptions outside `ClientError` escape. -/
def file_exists (head : HeadResult) : FileExistsResult :=
  match head with
  | .found => .result true
  | .clientError _ => .result false
  | .nonClientError m => .raised m

/- ## `Stack._describe_stack` / `Stack._stack_exists` (stack.py 97-123) -/

/-- The remote `describe_stacks` response: either a response whose first
stack record has the given `StackStatus` (the record is a nonempty dict,
hence truthy), or a `ClientError` carrying a message string. -/
inductive DescribeRemote where
  | ok (stackStatus : String)
  | clientError (message : String)
deriving DecidableEq, Repr

/-- What `_describe_stack` does: return the stack record, return `False`
(no such stack), or re-raise the `ClientError` (`raise ex`). -/
inductive DescribeOutcome where
  | record (stackStatus : String)
  | noStack
  | raised (message : String)
deriving DecidableEq, Repr

/-- The message of the `ClientError` the service raises for a missing
stack, as `_describe_stack` formats it:
`'Stack with id {0} does not exist'.format(self.kwargs['StackName'])`. -/
def stackNotExistMsg (name : String) : String :=
  "Stack with id " ++ name ++ " does not exist"

/-- `Stack._describe_stack`: returns `stacks['Stacks'][0]` on success; on a
`ClientError` returns `False` if the not-exist message for this stack name
occurs in `str(ex)`, else re-raises the original exception. -/
def describe_stack (name : String) (env : DescribeRemote) : DescribeOutcome :=
  match env with
  | .ok st => .record st
  | .clientError m =>
      if strIn (stackNotExistMsg name) m then .noStack else .raised m

/-- `Stack._stack_exists`: `False` when `_describe_stack` returned `False`
(`if not stack`), else `stack['StackStatus'] != 'REVIEW_IN_PROGRESS'`; a
re-raised `ClientError` propagates (modelled as `Except.error`). -/
def stack_exists (name : String) (env : DescribeRemote) : Except String Bool :=
  match describe_stack name env with
  | .record st => .ok (st != "REVIEW_IN_PROGRESS")
  | .noStack => .ok false
  | .raised m => .error m

/- ## `Stack._update_stack` / `_create_stack` / `_delete_stack`
     (stack.py lines 201-231) -/

/-- A remote CloudFormation call one of the three operations issues. -/
inductive StackCall where
  | describeStacks
  | createStack
  | updateStack
  | deleteStack
deriving DecidableEq, Repr

/-- The result of one of the three operations.
`raisedClientError m` is a propagated original exception instance
(`raise ex`); `raisedBareClientErrorClass` is the statement
`raise ClientError` in `_update_stack`, which raises the bare class with no
arguments, discarding the original exception instance and its message. -/
inductive StackOutcome where
  | ok
  | stackAlreadyExist (stack_name : String)
  | stackDoesntExist (stack_name : String)
  | updateStackError (stack_name : String)
  | raisedClientError (message : String)
  | raisedBareClientErrorClass
deriving DecidableEq, Repr

/-- The remote `update_stack` call's response: success or a `ClientError`
carrying a message. -/
inductive UpdateRemote where
  | ok
  | clientError (message : String)
deriving DecidableEq, Repr

/-- `Stack._update_stack`: raises `StackDoesntExist` when `_stack_exists()`
is false; otherwise calls `update_stack`; on a `ClientError` it raises
`UpdateStackError` when `'No updates are to be performed.' in str(ex)`,
else executes `raise ClientError` (the bare class).  Returns the outcome
and the trace of remote calls issued. -/
def update_stack (name : String) (denv : DescribeRemote) (uenv : UpdateRemote) :
    StackOutcome × List StackCall :=
  match stack_exists name denv with
  | .error m => (.raisedClientError m, [.describeStacks])
  | .ok false => (.stackDoesntExist name, [.describeStacks])
  | .ok true =>
      match uenv with
      | .ok => (.ok, [.describeStacks, .updateStack])
      | .clientError m =>
          if strIn "No updates are to be performed." m
          then (.updateStackError name, [.describeStacks, .updateStack])
          else (.raisedBareClientErrorClass, [.describeStacks, .updateStack])

/-- `Stack._create_stack`: raises `StackAlreadyExist` when
`_stack_exists()` is true, else calls `create_stack`. -/
def create_stack (name : String) (denv : DescribeRemote) :
    StackOutcome × List StackCall :=
  match stack_exists name denv with
  | .error m => (.raisedClientError m, [.describeStacks])
  | .ok true => (.stackAlreadyExist name, [.describeStacks])
  | .ok false => (.ok, [.describeStacks, .createStack])

/-- `Stack._delete_stack`: raises `StackDoesntExist` when `_stack_exists()`
is false, else calls `delete_stack`. -/
def delete_stack (name : String) (denv : DescribeRemote) :
    StackOutcome × List StackCall :=
  match stack_exists name denv with
  | .error m => (.raisedClientError m, [.describeStacks])
  | .ok false => (.stackDoesntExist name, [.describeStacks])
  | .ok true => (.ok, [.describeStacks, .deleteStack])

/- ## `S3Uploader.file_checksum` (package.py lines 135-155) -/

/-- Consecutive chunks of `n` bytes, as the checksum loop reads the file
(`file_handle.read(block_size)` with `block_size = 4096` until an empty
buffer). -/
def chunksOf : Nat → List UInt8 → List (List UInt8)
  | _, [] => []
  | 0, x :: xs => [x :: xs]
  | n+1, x :: xs => (x :: xs).take (n+1) :: chunksOf (n+1) ((x :: xs).drop (n+1))
termination_by _ l => l.length
decreasing_by
  simp only [List.length_drop, List.length_cons]
  omega

/-- Pure model of the streaming `hashlib.md5()` hasher: its state is the
byte stream absorbed so far; `md5.update(buf)` appends `buf`.  The digest
rendering itself (`hexdigest`) is an external library function and is
supplied as a parameter wherever the checksum is used. -/
def md5_update (st buf : List UInt8) : List UInt8 := st ++ buf

/-- `S3Uploader.file_checksum`, data path: feed the file's bytes to the
hasher in 4096-byte chunks and render the hex digest.  (The cursor
bookkeeping on the function's own file handle is modelled separately by
`file_checksum_run`.) -/
def file_checksum (hexdigest : List UInt8 → String) (content : List UInt8) :
    String :=
  hexdigest (List.foldl md5_update [] (chunksOf 4096 content))

/- ## `S3Uploader.upload` / `upload_with_dedup` (package.py 61-116) -/

/-- The uploader's constructed state (package.py lines 51-59); `pfx` embeds
the source field `prefix` (a Lean keyword). -/
structure S3Uploader where
  bucket_name : String
  region : String
  pfx : Option String
  kms_key_id : Option String
  force_upload : Bool
deriving DecidableEq, Repr

/-- `S3Uploader.make_url`: `'s3://{}/{}'.format(self.bucket_name, obj_path)`. -/
def make_url (bucket obj_path : String) : String :=
  "s3://" ++ bucket ++ "/" ++ obj_path

/-- The prefix application at the top of `upload`:
`if self.prefix and len(self.prefix) > 0: remote_path = '{}/{}'...`.
`self.prefix` truthy means non-`None` and nonempty. -/
def applyKeyPfx (pfx : Option String) (remote_path : String) : String :=
  match pfx with
  | some p =>
      if pyStrTruthy p && decide (0 < p.length) then p ++ "/" ++ remote_path
      else remote_path
  | none => remote_path

/-- A remote S3 call `upload` issues. -/
inductive S3Call where
  | headObject (bucket key : String)
  | transferUpload (bucket key : String)
deriving DecidableEq, Repr

/-- The transfer manager's response to the byte transfer. -/
inductive TransferResult where
  | ok
  | clientError (code : String)
deriving DecidableEq, Repr

/-- What `upload` does: return a locator URL, raise
`NoSuchBucketException`, re-raise the transfer's `ClientError`, or let a
non-`ClientError` exception from `file_exists` escape. -/
inductive UploadOutcome where
  | url (u : String)
  | noSuchBucket (bucket : String)
  | raisedClientError (code : String)
  | raisedNonClientError (msg : String)
deriving DecidableEq, Repr

/-- The `try` body of `upload`: run the transfer; on a `ClientError` whose
`error_code == 'NoSuchBucket'` raise `NoSuchBucketException`, else
re-raise (`raise ex`).  (The encryption arguments chosen from
`kms_key_id` affect only the request payload, not control flow.) -/
def uploadTransfer (u : S3Uploader) (transfer : TransferResult) (rp : String) :
    UploadOutcome :=
  match transfer with
  | .ok => .url (make_url u.bucket_name rp)
  | .clientError code =>
      if code = "NoSuchBucket" then .noSuchBucket u.bucket_name
      else .raisedClientError code

/-- `S3Uploader.upload`: prepend the prefix to `remote_path`; then
`if not self.force_upload and self.file_exists(remote_path): return
self.make_url(remote_path)` (Python `and` short-circuits, so with
`force_upload` true no `head_object` call is issued); otherwise transfer
the bytes.  Returns the outcome and the trace of S3 calls issued. -/
def upload (u : S3Uploader) (head : HeadResult) (transfer : TransferResult)
    (remote_path : String) : UploadOutcome × List S3Call :=
  let rp := applyKeyPfx u.pfx remote_path
  if u.force_upload = false then
    match file_exists head with
    | .raised m => (.raisedNonClientError m, [.headObject u.bucket_name rp])
    | .result true =>
        (.url (make_url u.bucket_name rp), [.headObject u.bucket_name rp])
    | .result false =>
        (uploadTransfer u transfer rp,
         [.headObject u.bucket_name rp, .transferUpload u.bucket_name rp])
  else
    (uploadTransfer u transfer rp, [.transferUpload u.bucket_name rp])

/-- The extension step of `upload_with_dedup`: `remote_path = filemd5`,
then `if extension: remote_path = '{0}.{1}'` of the path and extension. -/
def withExtension (filemd5 : String) (extension : Option String) : String :=
  match extension with
  | none => filemd5
  | some e => filemd5 ++ "." ++ e

/-- `S3Uploader.upload_with_dedup`: `remote_path` is the file's md5 hex
digest, with the extension appended when one is given, then delegate to
`upload`.  The local filesystem is `fs`, mapping a path to the file's
bytes. -/
def upload_with_dedup (u : S3Uploader) (hexdigest : List UInt8 → String)
    (head : HeadResult) (transfer : TransferResult) (fs : String → List UInt8)
    (file_name : String) (extension : Option String) :
    UploadOutcome × List S3Call :=
  let filemd5 := file_checksum hexdigest (fs file_name)
  upload u head transfer (withExtension filemd5 extension)

/-- The remote object key `upload_with_dedup` addresses, read off its body
and the prefix application inside `upload`: digest of the file's content,
optional `.extension`, optional `prefix/`. -/
def dedup_remote_key (hexdigest : List UInt8 → String) (pfx : Option String)
    (fs : String → List UInt8) (file_name : String) (extension : Option String) :
    String :=
  applyKeyPfx pfx (withExtension (file_checksum hexdigest (fs file_name)) extension)

/-- The object key an S3 call addresses. -/
def callKey : S3Call → String
  | .headObject _ k => k
  | .transferUpload _ k => k

/- ## `file_checksum`'s cursor bookkeeping (package.py 135-155, for C8) -/

/-- The chunked read loop of `file_checksum` on the function's own handle:
`buf = read(4096)` advances the cursor by the bytes returned; loop while
the buffer is nonempty.  Returns the bytes absorbed and the final cursor. -/
def md5ReadLoop (content : List UInt8) (pos : Nat) (acc : List UInt8) :
    List UInt8 × Nat :=
  if h : 0 < ((content.drop pos).take 4096).length then
    md5ReadLoop content (pos + ((content.drop pos).take 4096).length)
      (acc ++ (content.drop pos).take 4096)
  else (acc, pos)
termination_by content.length - pos
decreasing_by
  simp only [List.length_take, List.length_drop] at h ⊢
  omega

/-- A file together with an externally held read cursor on it (a second,
independently opened handle some other component owns). -/
structure FileWorld where
  content : List UInt8
  externalPos : Nat
deriving DecidableEq, Repr

/-- `S3Uploader.file_checksum` with its file-handle bookkeeping explicit.
The function opens its OWN handle (`with open(file_name, 'rb')`), so its
cursor starts at 0: `curpos = file_handle.tell()` (= 0), `seek(0)`, the
chunked read loop, `seek(curpos)`, close.  The external handle in `w`
belongs to a different open file description and none of these operations
address it. -/
def file_checksum_run (hexdigest : List UInt8 → String) (w : FileWorld) :
    String × FileWorld :=
  let ownPos0 : Nat := 0
  let curpos := ownPos0
  let ownPos1 : Nat := 0
  let lr := md5ReadLoop w.content ownPos1 []
  let ownPos2 := curpos
  let _ := ownPos2
  (hexdigest lr.1, w)

/- ## `Stack.__init__` (stack.py lines 51-61) -/

/-- What `Stack.__init__` does before returning. -/
inductive StackInitResult where
  | raisedEmptyStackName
  | initialized
deriving DecidableEq, Repr

/-- A side effect of `Stack.__init__`: the boto3 `Session(...).client(...)`
construction (the only statement there that touches the outside world). -/
inductive InitEffect where
  | sessionClientCreated
deriving DecidableEq, Repr

/-- `Stack.__init__`: `if 'StackName' not in kwargs: raise EmptyStackName`
comes first; only then is the session client created.  `kwargKeys` is the
set of keys of the keyword arguments; the trace records the effects
performed. -/
def stack_init (kwargKeys : List String) : StackInitResult × List InitEffect :=
  if kwargKeys.contains "StackName" = false
  then (.raisedEmptyStackName, [])
  else (.initialized, [.sessionClientCreated])

/- ## `Package.package` / `Package._write_output` (package.py 198-228) -/

/-- Strip trailing '/' characters from a character list. -/
def rstripSlashes (l : List Char) : List Char :=
  (l.reverse.dropWhile (fun c => c = '/')).reverse

/-- `os.path.dirname` (posixpath `dirname`): the head of the path up to and
including the last '/', then — when the head is nonempty and not made of
slashes only — with its trailing slashes stripped.  A path with no '/'
(such as the default `'template.package'`) has dirname `''`. -/
def dirname (p : String) : String :=
  let l := p.data
  let i := l.length - (l.reverse.takeWhile (fun c => c ≠ '/')).length
  let head := l.take i
  if !head.isEmpty && !head.all (fun c => c = '/') then ⟨rstripSlashes head⟩
  else ⟨head⟩

/-- `errno.ENOENT`: no such file or directory. -/
def ENOENT : Nat := 2

/-- `errno.EEXIST`: file exists. -/
def EEXIST : Nat := 17

/-- The filesystem's responses to `_write_output`'s directory operations on
a NONEMPTY directory path: whether `os.path.exists(dir)` holds, and the
outcome of `os.makedirs(dir)` (`none` = created, `some e` = `OSError` with
errno `e`).  For the empty directory path both responses are fixed by the
platform and are hard-coded in `write_output` instead: `os.path.exists('')`
is `False`, and `os.makedirs('')` raises `FileNotFoundError`, an `OSError`
with errno `ENOENT`. -/
structure DirEnv where
  dirExists : Bool
  makedirsErrno : Option Nat
deriving DecidableEq, Repr

/-- An observable effect of a packaging run: the exporter producing the
serialized document, the directory creation, and the output write. -/
inductive PackageEffect where
  | exported (doc : String)
  | madeDirs (dir : String)
  | wroteFile (path : String) (data : String)
deriving DecidableEq, Repr

/-- `Package._write_output(filename, data)`: `if filename is None: return`;
else, when `os.path.exists(os.path.dirname(filename))` is false, call
`os.makedirs(os.path.dirname(filename))`, swallowing an `OSError` only
when `ex.errno == errno.EEXIST` and re-raising any other (so for a
filename with empty dirname, `os.makedirs('')` raises `FileNotFoundError`
with errno `ENOENT` and the write is never reached); then write `data` to
`filename`.  `Except.error e` models the re-raised `OSError` with errno
`e`. -/
def write_output (env : DirEnv) (filename : Option String) (data : String) :
    Except Nat (List PackageEffect) :=
  match filename with
  | none => .ok []
  | some f =>
      let dir := dirname f
      let dirExistsRes := if dir = "" then false else env.dirExists
      if dirExistsRes = false then
        match (if dir = "" then some ENOENT else env.makedirsErrno) with
        | none => .ok [.madeDirs dir, .wroteFile f data]
        | some e =>
            if e ≠ EEXIST then .error e
            else .ok [.wroteFile f data]
      else .ok [.wroteFile f data]

/-- `Package.package`: `output_file = self.kwargs.get('OutputFile',
'template.package')` — `none` models the key being absent (Python then
yields the default `'template.package'`), `some v` the key present with
value `v` (`some none` = present with value `None`).  The exporter's
serialized document `doc` is produced first (`self._export(...)`), then
`_write_output(output_file, exported_str)` runs — its re-raised `OSError`
propagates out of `package` — and finally `output_file` is returned.  The
effect trace keeps the export even on the raising path, since the export
precedes the write. -/
def package (env : DirEnv) (outputFileKw : Option (Option String))
    (doc : String) : Except Nat (Option String) × List PackageEffect :=
  let output_file : Option String :=
    match outputFileKw with
    | none => some "template.package"
    | some v => v
  match write_output env output_file doc with
  | .error e => (.error e, [.exported doc])
  | .ok effs => (.ok output_file, .exported doc :: effs)

/- ## `Package.__init__`'s uploader (package.py lines 188-196) -/

/-- The `S3Uploader` constructed by `Package.__init__`:
`S3Uploader(client, bucket, self.kwargs.get('Region', 'eu-west-1'),
self.kwargs.get('StackName', 'cfn'), None, True)` — positionally:
prefix = the `StackName` kwarg or `'cfn'`, kms_key_id = `None`,
force_upload = `True`. -/
def package_init_uploader (bucket : String) (region stackName : Option String) :
    S3Uploader :=
  { bucket_name := bucket
    region := region.getD "eu-west-1"
    pfx := some (stackName.getD "cfn")
    kms_key_id := none
    force_upload := true }

/- ## Helper lemmas -/

/-- A string is a substring of itself. -/
theorem strIn_self (s : String) : strIn s s = true := by
  simp only [strIn, decide_eq_true_eq]
  exact List.infix_refl _

/-- Left cancellation for string append. -/
theorem string_append_cancel_left {p a b : String} (h : p ++ a = p ++ b) :
    a = b := by
  apply String.ext
  have hd := congrArg String.data h
  simp only [String.data_append] at hd
  exact List.append_cancel_left hd

/-- Right cancellation for string append. -/
theorem string_append_cancel_right {a b s : String} (h : a ++ s = b ++ s) :
    a = b := by
  apply String.ext
  have hd := congrArg String.data h
  simp only [String.data_append] at hd
  exact List.append_cancel_right hd

/-- Prepending the uploader's prefix to a key is injective in the key. -/
theorem applyKeyPfx_inj (pfx : Option String) {a b : String}
    (h : applyKeyPfx pfx a = applyKeyPfx pfx b) : a = b := by
  cases pfx with
  | none => exact h
  | some p =>
      by_cases hp : (pyStrTruthy p && decide (0 < p.length)) = true
      · simp only [applyKeyPfx, hp, if_true] at h
        exact string_append_cancel_left h
      · simp only [applyKeyPfx, hp, if_false, Bool.false_eq_true] at h
        exact h

/-- Appending the optional extension to a key is injective in the key. -/
theorem withExtension_inj (ext : Option String) {a b : String}
    (h : withExtension a ext = withExtension b ext) : a = b := by
  cases ext with
  | none => exact h
  | some e => exact string_append_cancel_right (string_append_cancel_right h)

/-- Rejoining the chunks the checksum loop reads gives back the file. -/
theorem flatten_chunksOf (n : Nat) (l : List UInt8) :
    (chunksOf n l).flatten = l := by
  induction n, l using chunksOf.induct with
  | case1 n => simp [chunksOf]
  | case2 x xs => simp [chunksOf]
  | case3 n x xs ih =>
      simp only [chunksOf, List.flatten_cons, ih]
      exact List.take_append_drop _ _

/-- Folding `md5.update` over buffers absorbs their concatenation. -/
theorem foldl_md5_update (L : List (List UInt8)) (acc : List UInt8) :
    List.foldl md5_update acc L = acc ++ L.flatten := by
  induction L generalizing acc with
  | nil => simp
  | cons x xs ih => simp [md5_update, ih, List.flatten_cons]

/-- The chunked checksum digests exactly the file's bytes. -/
theorem file_checksum_eq (hexdigest : List UInt8 → String)
    (content : List UInt8) :
    file_checksum hexdigest content = hexdigest content := by
  unfold file_checksum
  rw [foldl_md5_update, flatten_chunksOf]
  rfl

/-- Every S3 call `upload` issues addresses the prefixed remote key. -/
theorem upload_calls_key (u : S3Uploader) (head : HeadResult)
    (transfer : TransferResult) (rp : String) :
    ∀ c ∈ (upload u head transfer rp).2,
      callKey c = applyKeyPfx u.pfx rp := by
  intro c hc
  cases hf : u.force_upload <;> cases head <;>
    simp [upload, file_exists, hf] at hc <;>
    first
      | (subst hc; rfl)
      | (rcases hc with rfl | rfl <;> rfl)

/-- Dropping as many elements as a take returned drops the same elements. -/
theorem drop_length_take {α : Type} (n : Nat) (l : List α) :
    l.drop ((l.take n).length) = l.drop n := by
  rcases Nat.le_total n l.length with h | h
  · simp [List.length_take, Nat.min_eq_left h]
  · rw [List.length_take, Nat.min_eq_right h, List.drop_length,
      List.drop_eq_nil_of_le h]

/-- What the checksum read loop computes: from a cursor inside the file it
absorbs the rest of the file and stops with the cursor at the end. -/
theorem md5ReadLoop_spec (content : List UInt8) (pos : Nat) (acc : List UInt8) :
    pos ≤ content.length →
      md5ReadLoop content pos acc = (acc ++ content.drop pos, content.length) := by
  induction pos, acc using md5ReadLoop.induct content with
  | case1 pos acc h ih =>
      intro hle
      have hbl : ((content.drop pos).take 4096).length ≤ content.length - pos := by
        simp [List.length_take, List.length_drop]
      rw [md5ReadLoop, dif_pos h, ih (by omega)]
      refine Prod.ext ?_ rfl
      show (acc ++ (content.drop pos).take 4096) ++
          content.drop (pos + ((content.drop pos).take 4096).length) = _
      rw [List.append_assoc]
      congr 1
      rw [← List.drop_drop, drop_length_take, List.take_append_drop]
  | case2 pos acc h =>
      intro hle
      have hz : content.length - pos = 0 := by
        simp only [List.length_take, List.length_drop] at h
        omega
      rw [md5ReadLoop, dif_neg h]
      refine Prod.ext ?_ ?_
      · show acc = acc ++ content.drop pos
        rw [List.drop_eq_nil_of_le (by omega), List.append_nil]
      · show pos = content.length
        omega

/- ## Claim theorems -/

/-- C1: the code raises `EmptyChangeSet` for every terminal `FAILED`
change-set status, even when the status reason contains neither known
no-op phrasing (here `"Access Denied"`), because `msg[0]` is a nonempty,
hence truthy, string — contradicting the claim that `EmptyChangeSet` is
raised iff the reason indicates there was nothing to change, and that any
other terminal failure propagates as the original `WaiterError`. -/
theorem C1_failed_reason_not_inspected :
    wait_for_change_set "demo"
        (some { Status := "FAILED", StatusReason := "Access Denied" }) =
      WaitChangeSetResult.emptyChangeSet "demo" ∧
    strIn "No updates are to be performed" "Access Denied" = false ∧
    strIn "The submitted information didn\x27t contain changes." "Access Denied"
      = false := by
  refine ⟨?_, ?_, ?_⟩ <;> decide

/-- C2 counterexample: `file_exists` answers `False` on a `ClientError`
whose code is `AccessDenied`, an error that does not indicate absence of
the object — refuting the claim that `False` is returned only when the
store's error specifically indicates absence and that other errors from
the metadata query propagate. -/
theorem C2_access_denied_swallowed :
    file_exists (HeadResult.clientError S3ErrorCode.accessDenied) =
      FileExistsResult.result false ∧
    indicatesAbsence S3ErrorCode.accessDenied = false :=
  ⟨rfl, rfl⟩

/-- C2 amended: `file_exists` returns `False` for every `ClientError` from
the metadata query, whatever its code (authorization errors included);
only exceptions outside the `ClientError` class propagate to the caller. -/
theorem C2_every_client_error_is_false :
    (∀ c, file_exists (HeadResult.clientError c) =
      FileExistsResult.result false) ∧
    file_exists HeadResult.found = FileExistsResult.result true ∧
    ∀ m, file_exists (HeadResult.nonClientError m) =
      FileExistsResult.raised m :=
  ⟨fun _ => rfl, rfl, fun _ => rfl⟩

/-- C3: on an existing stack, a remote `update_stack` `ClientError` whose
message does not contain `'No updates are to be performed.'` is NOT
propagated as the original error instance — the handler executes
`raise ClientError`, raising the bare exception class and discarding the
instance and its message — while the no-op message is, as claimed,
translated into `UpdateStackError` carrying the stack name. -/
theorem C3_unrecognized_update_error_loses_instance :
    (update_stack "demo" (DescribeRemote.ok "UPDATE_COMPLETE")
        (UpdateRemote.clientError "Rate exceeded")).1 =
      StackOutcome.raisedBareClientErrorClass ∧
    (update_stack "demo" (DescribeRemote.ok "UPDATE_COMPLETE")
        (UpdateRemote.clientError
          "An error occurred (ValidationError): No updates are to be performed.")).1
      = StackOutcome.updateStackError "demo" := by
  refine ⟨?_, ?_⟩ <;> decide

/-- C4 counterexample: calling `package` with no `OutputFile` supplied is
NOT valid — `kwargs.get('OutputFile', 'template.package')` turns the
absent key into the default path `'template.package'`, whose dirname is
`''`; `os.path.exists('')` is false, so `_write_output` calls
`os.makedirs('')`, which raises `FileNotFoundError` (errno `ENOENT`), and
the handler re-raises it because `ENOENT != EEXIST`.  So the call raises
instead of skipping the write (the exported document is still produced
first, but no file is written). -/
theorem C4_no_output_path_raises :
    package ⟨false, none⟩ none "doc" =
      (Except.error ENOENT, [PackageEffect.exported "doc"]) ∧
    dirname "template.package" = "" := by
  refine ⟨rfl, ?_⟩
  decide

/-- C4 amended: only an `OutputFile` explicitly supplied as `None` skips
the write while still producing the exported document (dry preview);
omitting the key is not valid — whatever the filesystem holds, the call
raises the re-raised `FileNotFoundError` (errno `ENOENT`) from
`os.makedirs('')` on the default path's empty dirname, after producing
the exported document but before writing any file. -/
theorem C4_explicit_none_skips_write (env : DirEnv) (doc : String) :
    package env (some none) doc =
      (Except.ok none, [PackageEffect.exported doc]) ∧
    package env none doc =
      (Except.error ENOENT, [PackageEffect.exported doc]) :=
  ⟨rfl, rfl⟩

/-- C5: `create` on an existing stack (status not `REVIEW_IN_PROGRESS`)
raises `StackAlreadyExist` with a trace of exactly one fresh
`describe_stacks` query and no `create_stack` call; `update`/`delete` on a
non-existent stack (the service reports the not-exist message) raise
`StackDoesntExist` with the same single-query trace and no mutating call;
and on the successful paths the mutating call immediately follows the
fresh existence query. -/
theorem C5_mutating_ops_guarded (name st m : String)
    (hst : st ≠ "REVIEW_IN_PROGRESS")
    (hm : strIn (stackNotExistMsg name) m = true) :
    create_stack name (DescribeRemote.ok st) =
      (StackOutcome.stackAlreadyExist name, [StackCall.describeStacks]) ∧
    (∀ uenv, update_stack name (DescribeRemote.clientError m) uenv =
      (StackOutcome.stackDoesntExist name, [StackCall.describeStacks])) ∧
    delete_stack name (DescribeRemote.clientError m) =
      (StackOutcome.stackDoesntExist name, [StackCall.describeStacks]) ∧
    create_stack name (DescribeRemote.clientError m) =
      (StackOutcome.ok, [StackCall.describeStacks, StackCall.createStack]) ∧
    update_stack name (DescribeRemote.ok st) UpdateRemote.ok =
      (StackOutcome.ok, [StackCall.describeStacks, StackCall.updateStack]) ∧
    delete_stack name (DescribeRemote.ok st) =
      (StackOutcome.ok, [StackCall.describeStacks, StackCall.deleteStack]) := by
  have hb : (st != "REVIEW_IN_PROGRESS") = true := by
    simp [bne_iff_ne, hst]
  refine ⟨?_, fun uenv => ?_, ?_, ?_, ?_, ?_⟩ <;>
    simp [create_stack, update_stack, delete_stack, stack_exists,
      describe_stack, hm, hb]

/-- C5 witness: the guards at concrete inputs. -/
theorem C5_mutating_ops_guarded_witness :
    create_stack "demo" (DescribeRemote.ok "CREATE_COMPLETE") =
      (StackOutcome.stackAlreadyExist "demo", [StackCall.describeStacks]) :=
  (C5_mutating_ops_guarded "demo" "CREATE_COMPLETE" (stackNotExistMsg "demo")
    (by decide) (strIn_self _)).1

/-- C6: `_stack_exists` answers `True` iff the remote describe query
returned a stack record whose status is not `REVIEW_IN_PROGRESS`, and a
`ClientError` carrying the service's not-exist message for the given name
yields `False` rather than an exception. -/
theorem C6_stack_exists_characterization (name : String)
    (env : DescribeRemote) :
    (stack_exists name env = Except.ok true ↔
      ∃ st, env = DescribeRemote.ok st ∧ st ≠ "REVIEW_IN_PROGRESS") ∧
    stack_exists name (DescribeRemote.clientError (stackNotExistMsg name)) =
      Except.ok false := by
  constructor
  · constructor
    · intro h
      cases env with
      | ok st =>
          refine ⟨st, rfl, ?_⟩
          simp only [stack_exists, describe_stack, Except.ok.injEq] at h
          simpa [bne_iff_ne] using h
      | clientError m =>
          by_cases hm : strIn (stackNotExistMsg name) m = true <;>
            simp [stack_exists, describe_stack, hm] at h
    · rintro ⟨st, rfl, hst⟩
      simp [stack_exists, describe_stack, bne_iff_ne, hst]
  · simp [stack_exists, describe_stack, strIn_self]

/-- C7: every S3 call `upload_with_dedup` issues addresses the key
`dedup_remote_key` — a pure function of the file's content hash, the
optional extension and the uploader's optional prefix; files with equal
byte content map to the same key regardless of their local paths, and
files whose digests differ map to different keys. -/
theorem C7_dedup_key_pure_function_of_content
    (hexdigest : List UInt8 → String) (u : S3Uploader) (head : HeadResult)
    (transfer : TransferResult) (fs : String → List UInt8) (p1 p2 : String)
    (ext : Option String) :
    (∀ c ∈ (upload_with_dedup u hexdigest head transfer fs p1 ext).2,
        callKey c = dedup_remote_key hexdigest u.pfx fs p1 ext) ∧
    (fs p1 = fs p2 →
        dedup_remote_key hexdigest u.pfx fs p1 ext =
          dedup_remote_key hexdigest u.pfx fs p2 ext) ∧
    (hexdigest (fs p1) ≠ hexdigest (fs p2) →
        dedup_remote_key hexdigest u.pfx fs p1 ext ≠
          dedup_remote_key hexdigest u.pfx fs p2 ext) := by
  refine ⟨?_, ?_, ?_⟩
  · intro c hc
    exact upload_calls_key u head transfer _ c hc
  · intro h
    simp [dedup_remote_key, h]
  · intro hne heq
    apply hne
    have h1 := withExtension_inj ext (applyKeyPfx_inj u.pfx heq)
    rw [file_checksum_eq, file_checksum_eq] at h1
    exact h1

/-- C8: computing the checksum leaves an externally held read position
unchanged (the function opens its own handle): with the external cursor
seeked to offset `n`, after `file_checksum_run` it is still at `n`; and
the digest produced is the digest of the file's full byte content. -/
theorem C8_checksum_preserves_external_cursor
    (hexdigest : List UInt8 → String) (content : List UInt8) (n : Nat) :
    (file_checksum_run hexdigest ⟨content, n⟩).2.externalPos = n ∧
    (file_checksum_run hexdigest ⟨content, n⟩).1 =
      file_checksum hexdigest content := by
  constructor
  · rfl
  · show hexdigest (md5ReadLoop content 0 []).1 = _
    rw [md5ReadLoop_spec content 0 [] (Nat.zero_le _), file_checksum_eq]
    simp

/-- C9: constructing a `Stack` from keyword arguments without `StackName`
raises `EmptyStackName` with an empty effect trace — before the boto3
session client is created and before any remote call. -/
theorem C9_missing_stack_name_fails_first (kwargKeys : List String)
    (h : kwargKeys.contains "StackName" = false) :
    stack_init kwargKeys = (StackInitResult.raisedEmptyStackName, []) := by
  rw [stack_init, if_pos h]

/-- C9 witness: kwargs carrying only a profile. -/
theorem C9_missing_stack_name_fails_first_witness :
    stack_init ["Profile"] = (StackInitResult.raisedEmptyStackName, []) :=
  C9_missing_stack_name_fails_first ["Profile"] (by decide)

/-- C10: the uploader `Package.__init__` constructs has
`force_upload = True` and prefix the `StackName` kwarg or `'cfn'`; every
upload through it transfers unconditionally — the trace is exactly one
transfer call to the prefixed key, with no `head_object` existence probe,
whatever the store holds. -/
theorem C10_package_uploader_forces_upload (bucket : String)
    (region stackName : Option String) (head : HeadResult)
    (transfer : TransferResult) (remote_path : String) :
    (package_init_uploader bucket region stackName).force_upload = true ∧
    (package_init_uploader bucket region stackName).pfx =
      some (stackName.getD "cfn") ∧
    (upload (package_init_uploader bucket region stackName) head transfer
        remote_path).2 =
      [S3Call.transferUpload bucket
        (applyKeyPfx (some (stackName.getD "cfn")) remote_path)] ∧
    ∀ b k, S3Call.headObject b k ∉
      (upload (package_init_uploader bucket region stackName) head transfer
        remote_path).2 := by
  refine ⟨rfl, rfl, ?_, ?_⟩ <;>
    simp [upload, package_init_uploader]

end Cfndeployer
